import Mathlib

/-!
# Verification development for `Source/amf.cpp` (obs-amd-encoder)

A shallow embedding of the AMF runtime wrapper: the `CustomWriter` trace sink,
the `Initialize` / `Instance` / `Finalize` singleton, the constructor and
destructor of `Plugin::AMD::AMF`, the accessors and `EnableDebugTrace`.

Conventions of the embedding:

* pointers and handles are natural numbers, `0` being `nullptr` / `NULL`;
* wide and narrow C strings are the list of their characters before the
  terminator, so `wcslen` is the length and an index is inside the string
  when it does not pass the terminator;
* `size_t` arithmetic is taken modulo `2 ^ 64`; a `size_t` handed to `printf` as
  the precision of `%.*ls` is read as an `int`, its low 32 bits taken as signed;
* a thrown `std::exception` carries the format string and the arguments it was
  formatted from; a dereference of a null pointer is the outcome `fault`;
* the outcomes of calls into the operating system and the vendor runtime are
  read from an environment record, one per run of the constructor.
-/

namespace Plugin.AMD

/-! ## Packed version numbers (constructor, version log line) -/

/-- Truncation of the cast `(uint16_t)x`. -/
def toUInt16 (x : Nat) : Nat := x % 2 ^ 16

/-- Truncation to `uint64_t`. -/
def toUInt64 (x : Nat) : Nat := x % 2 ^ 64

/-- First version argument of the log line: `(uint16_t)((v >> 48ull) & 0xFFFF)`. -/
def versionMajor (v : Nat) : Nat := toUInt16 ((v >>> 48) &&& 0xFFFF)

/-- Second version argument of the log line: `(uint16_t)((v >> 32ull) & 0xFFFF)`. -/
def versionMinor (v : Nat) : Nat := toUInt16 ((v >>> 32) &&& 0xFFFF)

/-- Third version argument of the log line: `(uint16_t)((v >> 16ull) & 0xFFFF)`. -/
def versionPatch (v : Nat) : Nat := toUInt16 ((v >>> 16) &&& 0xFFFF)

/-- Fourth version argument of the log line: `(uint16_t)((v & 0xFFFF))`. -/
def versionBuild (v : Nat) : Nat := toUInt16 (v &&& 0xFFFF)

/-- Modelled from the spec: the packing of four components into a 64-bit
version, `(major << 48) | (minor << 32) | (patch << 16) | build`. In the source
the packed value arrives ready-made (`AMF_FULL_VERSION`, `AMFQueryVersion`);
the expression that builds it belongs to the vendor headers. -/
def packVersion (major minor patch build : Nat) : Nat :=
  toUInt64 (toUInt64 (major <<< 48) ||| toUInt64 (minor <<< 32)
    ||| toUInt64 (patch <<< 16) ||| build)

/-! ## Strings, pointers, errors -/

/-- A raw pointer or handle; `0` is `nullptr`. -/
abbrev Ptr := Nat

/-- Size of `wchar_t` on the Windows targets this file is built for. -/
def sizeof_wchar_t : Nat := 2

/-- Range of `size_t`. -/
def SIZE_RANGE : Nat := 2 ^ 64

/-- Length of a C string (`wcslen`, `strlen`): the characters before the terminator. -/
def wcslen (s : List Char) : Nat := s.length

/-- An argument handed to a `printf`-style format. -/
inductive Arg where
  | str (s : String)
  | num (n : Nat)
deriving DecidableEq, Repr

/-- The `std::exception` built from a formatted message: the format string and the
arguments it is formatted with. -/
structure Exception where
  format : String
  args : List Arg
deriving DecidableEq, Repr

/-- How a call can fail: a thrown `std::exception`, or a dereference of a null
pointer. -/
inductive Error where
  | thrown (e : Exception)
  | fault
deriving DecidableEq, Repr

/-! ## `CustomWriter::Write` -/

/-- Text produced by `"[AMF Encoder] [%.*ls][%ls] %.*ls"` once the two precisions have
been applied to their strings. -/
def formatWrite (time scope body : List Char) : List Char :=
  "[AMF Encoder] [".toList ++ time ++ "][".toList ++ scope ++ "] ".toList ++ body

/-- Value of `(int)x`: the low 32 bits of `x` read as a signed number. -/
def toInt32 (x : Nat) : Int :=
  if x % 2 ^ 32 < 2 ^ 31 then ((x % 2 ^ 32 : Nat) : Int) else ((x % 2 ^ 32 : Nat) : Int) - 2 ^ 32

/-- What `%.*ls` prints of the string `s` for the precision argument `precision`: at most
that many characters, and all of `s` when the precision is negative. -/
def applyPrecision (precision : Int) (s : List Char) : List Char :=
  if precision < 0 then s else s.take precision.toNat

/-- Index of `realmsg` in `message`: `33 + wcslen(scope) + 2`, in `size_t`. -/
def CustomWriter.start (scope : List Char) : Nat :=
  (33 + wcslen scope + 2) % SIZE_RANGE

/-- The `size_t` value `msgLen = wcslen(realmsg) - sizeof(wchar_t)`, the subtraction
taken modulo the range of `size_t`. -/
def CustomWriter.msgLen (scope message : List Char) : Nat :=
  (wcslen (message.drop (CustomWriter.start scope)) + SIZE_RANGE - sizeof_wchar_t) % SIZE_RANGE

/-- The trace sink `CustomWriter::Write(scope, message)`: the text of the
`blog(LOG_INFO, ...)` call, with `realmsg = &message[33 + wcslen(scope) + 2]`,
`msgLen = wcslen(realmsg) - sizeof(wchar_t)` and the arguments
`12, &message[11], scope, msgLen, realmsg` of the format. The result is `none` only when
`&message[...]` lies past the terminator of the string, where the reads of the code are
undefined; a `msgLen` that wrapped is printed as `printf` reads it. -/
def CustomWriter.Write (scope message : List Char) : Option (List Char) :=
  if CustomWriter.start scope ≤ wcslen message ∧ 11 ≤ wcslen message then
    let realmsg := message.drop (CustomWriter.start scope)
    let msgLen := CustomWriter.msgLen scope message
    some (formatWrite (applyPrecision 12 (message.drop 11)) scope
      (applyPrecision (toInt32 msgLen) realmsg))
  else none

/-- A raw trace line in the layout the offsets of `Write` assume: a header of 33
characters (date, time, thread), the scope name, two framing characters, the body. -/
def rawLine (header scope framing body : List Char) : List Char :=
  header ++ scope ++ framing ++ body

/-! ## The vendor runtime's trace and debug objects -/

/-- Severity levels the source passes to the trace object. -/
inductive TraceLevel where
  | AMF_TRACE_ERROR
  | AMF_TRACE_WARNING
  | AMF_TRACE_TEST
deriving DecidableEq, Repr

/-- Writers the source addresses: the three built-in ones and the registered
`L"OBSWriter"`. -/
inductive TraceWriter where
  | AMF_TRACE_WRITER_CONSOLE
  | AMF_TRACE_WRITER_DEBUG_OUTPUT
  | AMF_TRACE_WRITER_FILE
  | OBSWriter
deriving DecidableEq, Repr

/-- Settings of one trace writer. -/
structure WriterState where
  enabled : Bool
  level : TraceLevel
deriving DecidableEq, Repr

/-- Configuration held by the runtime's `AMFTrace` object. -/
structure TraceState where
  console : WriterState
  debugOutput : WriterState
  file : WriterState
  obsWriter : WriterState
  globalLevel : TraceLevel
  asyncEnabled : Bool
  path : Option String
deriving DecidableEq, Repr

/-- Configuration held by the runtime's `AMFDebug` object. -/
structure DebugState where
  asserts : Bool
  performanceMonitor : Bool
deriving DecidableEq, Repr

/-- Calls that leave this translation unit, in the order they are made. -/
inductive Call where
  | new_AMF
  | delete_AMF
  | AMF_LOG_DEBUG (format : String) (args : List Arg)
  | AMF_LOG_INFO (format : String) (args : List Arg)
  | LoadLibraryW (name : String)
  | GetFileVersionInfo
  | GetProcAddress (name : String)
  | AMFQueryVersion
  | AMFInit (version : Nat)
  | GetTrace
  | GetDebug
  | new_CustomWriter
  | delete_CustomWriter
  | RegisterWriter (enable : Bool)
  | EnableWriter (w : TraceWriter) (enable : Bool)
  | SetWriterLevel (w : TraceWriter) (level : TraceLevel)
  | SetPath (path : String)
  | SetGlobalLevel (level : TraceLevel)
  | TraceEnableAsync (enable : Bool)
  | AssertsEnable (enable : Bool)
  | EnablePerformanceMonitor (enable : Bool)
  | FreeLibrary (module : Ptr)
deriving DecidableEq, Repr

/-- Everything outside the singleton that the code acts on: the runtime's trace and
debug configuration and the record of the calls made so far. -/
structure World where
  trace : TraceState
  debug : DebugState
  calls : List Call
deriving DecidableEq, Repr

/-- Record one call. -/
def World.call (w : World) (c : Call) : World :=
  { w with calls := w.calls ++ [c] }

/-- Update of one writer's settings inside the trace configuration. -/
def TraceState.modifyWriter (t : TraceState) (w : TraceWriter)
    (f : WriterState → WriterState) : TraceState :=
  match w with
  | .AMF_TRACE_WRITER_CONSOLE => { t with console := f t.console }
  | .AMF_TRACE_WRITER_DEBUG_OUTPUT => { t with debugOutput := f t.debugOutput }
  | .AMF_TRACE_WRITER_FILE => { t with file := f t.file }
  | .OBSWriter => { t with obsWriter := f t.obsWriter }

/-- Effect of `m_AMFTrace->EnableWriter(w, enable)`. -/
def World.EnableWriter (x : World) (w : TraceWriter) (enable : Bool) : World :=
  { (x.call (.EnableWriter w enable)) with
    trace := x.trace.modifyWriter w (fun s => { s with enabled := enable }) }

/-- Effect of `m_AMFTrace->SetWriterLevel(w, level)`. -/
def World.SetWriterLevel (x : World) (w : TraceWriter) (level : TraceLevel) : World :=
  { (x.call (.SetWriterLevel w level)) with
    trace := x.trace.modifyWriter w (fun s => { s with level := level }) }

/-- Effect of `m_AMFTrace->SetPath(path)`. -/
def World.SetPath (x : World) (path : String) : World :=
  { (x.call (.SetPath path)) with trace := { x.trace with path := some path } }

/-- Effect of `m_AMFTrace->SetGlobalLevel(level)`. -/
def World.SetGlobalLevel (x : World) (level : TraceLevel) : World :=
  { (x.call (.SetGlobalLevel level)) with trace := { x.trace with globalLevel := level } }

/-- Effect of `m_AMFTrace->TraceEnableAsync(enable)`. -/
def World.TraceEnableAsync (x : World) (enable : Bool) : World :=
  { (x.call (.TraceEnableAsync enable)) with
    trace := { x.trace with asyncEnabled := enable } }

/-- Effect of `m_AMFDebug->AssertsEnable(enable)`. -/
def World.AssertsEnable (x : World) (enable : Bool) : World :=
  { (x.call (.AssertsEnable enable)) with debug := { x.debug with asserts := enable } }

/-- Effect of `m_AMFDebug->EnablePerformanceMonitor(enable)`. -/
def World.EnablePerformanceMonitor (x : World) (enable : Bool) : World :=
  { (x.call (.EnablePerformanceMonitor enable)) with
    debug := { x.debug with performanceMonitor := enable } }

/-- Effect of `m_AMFTrace->RegisterWriter(L"OBSWriter", writer, enable)`. -/
def World.RegisterWriter (x : World) (enable : Bool) : World :=
  { (x.call (.RegisterWriter enable)) with
    trace := x.trace.modifyWriter .OBSWriter (fun s => { s with enabled := enable }) }

/-! ## The `AMF` object -/

/-- `AMF_RESULT` codes; the source only compares them with `AMF_OK`. -/
abbrev AMF_RESULT := Nat

/-- The success code. -/
def AMF_OK : AMF_RESULT := 0

/-- Constants the source takes from the vendor headers and the build. -/
structure Build where
  AMF_DLL_NAME : String
  AMF_QUERY_VERSION_FUNCTION_NAME : String
  AMF_INIT_FUNCTION_NAME : String
  AMF_FULL_VERSION : Nat
  _DEBUG : Bool
deriving DecidableEq, Repr

/-- Data members of `Plugin::AMD::AMF`, with `this`, the address `new` gave the object. -/
structure AMF where
  this : Ptr
  m_TimerPeriod : Nat
  m_AMFVersion_Plugin : Nat
  m_AMFVersion_Runtime : Nat
  m_AMFModule : Ptr
  m_AMFFactory : Ptr
  m_AMFTrace : Ptr
  m_AMFDebug : Ptr
  AMFQueryVersion : Ptr
  AMFInit : Ptr
  m_TraceWriter : Ptr
deriving DecidableEq, Repr

/-- What the operating system and the runtime answer during one run of the
constructor. -/
structure Env where
  /-- address returned by `new AMF` -/
  address : Ptr
  /-- `LoadLibraryW(AMF_DLL_NAME)` -/
  module : Ptr
  /-- `GetLastError()` after the load -/
  loadError : Nat
  /-- product version string read from the library's version resource -/
  productVersion : String
  /-- `GetProcAddress(m_AMFModule, AMF_QUERY_VERSION_FUNCTION_NAME)` -/
  queryVersionProc : Ptr
  /-- `GetLastError()` after that lookup -/
  queryVersionProcError : Nat
  /-- result of `AMFQueryVersion(&m_AMFVersion_Runtime)` -/
  queryVersionResult : AMF_RESULT
  /-- version it stores -/
  runtimeVersion : Nat
  /-- `GetProcAddress(m_AMFModule, AMF_INIT_FUNCTION_NAME)` -/
  initProc : Ptr
  /-- `GetLastError()` after that lookup -/
  initProcError : Nat
  /-- result of `AMFInit(m_AMFVersion_Runtime, &m_AMFFactory)` -/
  initResult : AMF_RESULT
  /-- factory it stores -/
  factory : Ptr
  /-- result of `m_AMFFactory->GetTrace(&m_AMFTrace)` -/
  traceResult : AMF_RESULT
  /-- trace object it stores -/
  trace : Ptr
  /-- result of `m_AMFFactory->GetDebug(&m_AMFDebug)` -/
  debugResult : AMF_RESULT
  /-- debug object it stores -/
  debug : Ptr
  /-- address returned by `new CustomWriter()` -/
  traceWriter : Ptr
deriving DecidableEq, Repr

/-- Accessor `AMF::GetFactory`. -/
def AMF.GetFactory (self : AMF) : Ptr := self.m_AMFFactory

/-- Accessor `AMF::GetTrace`. -/
def AMF.GetTrace (self : AMF) : Ptr := self.m_AMFTrace

/-- Accessor `AMF::GetDebug`. -/
def AMF.GetDebug (self : AMF) : Ptr := self.m_AMFDebug

/-- The exception of `EnableDebugTrace` for a missing trace object
(`__FUNCTION_NAME__` left unexpanded). -/
def noTraceObject : Exception :=
  ⟨"<__FUNCTION_NAME__> called without a AMFTrace object!", []⟩

/-- The exception of `EnableDebugTrace` for a missing debug object. -/
def noDebugObject : Exception :=
  ⟨"<__FUNCTION_NAME__> called without a AMFDebug object!", []⟩

/-- The six writer calls `EnableDebugTrace` makes whatever `enable` is; the middle
pair depends on `_DEBUG`. -/
def builtinWriters (b : Build) (w : World) : World :=
  let w := w.EnableWriter .AMF_TRACE_WRITER_CONSOLE false
  let w := w.SetWriterLevel .AMF_TRACE_WRITER_CONSOLE .AMF_TRACE_ERROR
  let w :=
    if b._DEBUG then
      ((w.EnableWriter .AMF_TRACE_WRITER_DEBUG_OUTPUT true).SetWriterLevel
        .AMF_TRACE_WRITER_DEBUG_OUTPUT .AMF_TRACE_TEST).SetPath "C:/AMFTrace.log"
    else
      (w.EnableWriter .AMF_TRACE_WRITER_DEBUG_OUTPUT false).SetWriterLevel
        .AMF_TRACE_WRITER_DEBUG_OUTPUT .AMF_TRACE_ERROR
  let w := w.EnableWriter .AMF_TRACE_WRITER_FILE false
  w.SetWriterLevel .AMF_TRACE_WRITER_FILE .AMF_TRACE_ERROR

/-- The method `AMF::EnableDebugTrace(enable)` on the object `self`. -/
def AMF.EnableDebugTrace (b : Build) (self : AMF) (enable : Bool) (w : World) :
    World × Except Error Unit :=
  if self.m_AMFTrace = 0 then
    (w, .error (.thrown noTraceObject))
  else if self.m_AMFDebug = 0 then
    (w, .error (.thrown noDebugObject))
  else
    let w := builtinWriters b w
    if enable then
      let w := w.AssertsEnable true
      let w := w.EnablePerformanceMonitor true
      let w := w.TraceEnableAsync true
      let w := w.SetGlobalLevel .AMF_TRACE_TEST
      (w.SetWriterLevel .OBSWriter .AMF_TRACE_TEST, .ok ())
    else
      let w := w.AssertsEnable false
      let w := w.EnablePerformanceMonitor false
      let w := w.TraceEnableAsync true
      let w := w.SetGlobalLevel .AMF_TRACE_WARNING
      (w.SetWriterLevel .OBSWriter .AMF_TRACE_WARNING, .ok ())

/-- Format of the success line (`PLUGIN_VERSION_TEXT` left unexpanded). -/
def versionLogFormat : String :=
  "Version PLUGIN_VERSION_TEXT loaded (Compiled: %d.%d.%d.%d, Runtime: %d.%d.%d.%d, Library: %.*s)."

/-- Format of the two symbol-lookup errors. -/
def missingSymbolFormat : String :=
  "Incompatible AMF Runtime (could not find '%s'), error code %ld."

/-- The constructor `AMF::AMF()`: the world after the calls it made, and either the
finished object or the error that ended it. The members start out null
(`m_AMFVersion_Plugin` as `AMF_FULL_VERSION`) and each is assigned at most once, so they
are carried as local values and put together when the object is first used as a whole; an
object whose construction ends in an error is never seen. -/
def AMF.construct (b : Build) (e : Env) (w : World) : World × Except Error AMF :=
  let w := w.call (.AMF_LOG_DEBUG "<__FUNCTION_NAME__> Initializing..." [])
  -- Load AMF Runtime Library
  let w := w.call (.LoadLibraryW b.AMF_DLL_NAME)
  let m_AMFModule := e.module
  if m_AMFModule = 0 then
    (w, .error (.thrown ⟨"Unable to load '%ls', error code %ld.",
      [.str b.AMF_DLL_NAME, .num e.loadError]⟩))
  else
    let w := w.call (.AMF_LOG_DEBUG "<__FUNCTION_NAME__> Loaded '%ls'." [.str b.AMF_DLL_NAME])
    -- Windows: Get Product Version for Driver Matching (no result is checked)
    let w := w.call .GetFileVersionInfo
    -- Query Runtime Version
    let w := w.call (.GetProcAddress b.AMF_QUERY_VERSION_FUNCTION_NAME)
    let AMFQueryVersion := e.queryVersionProc
    if AMFQueryVersion = 0 then
      (w, .error (.thrown ⟨missingSymbolFormat,
        [.str b.AMF_QUERY_VERSION_FUNCTION_NAME, .num e.queryVersionProcError]⟩))
    else
      let w := w.call .AMFQueryVersion
      let m_AMFVersion_Runtime := e.runtimeVersion
      if e.queryVersionResult ≠ AMF_OK then
        (w, .error (.thrown ⟨"Querying Version failed, error code %ld.",
          [.num e.queryVersionResult]⟩))
      else
        -- Initialize AMF
        let w := w.call (.GetProcAddress b.AMF_INIT_FUNCTION_NAME)
        let AMFInit := e.initProc
        if AMFInit = 0 then
          (w, .error (.thrown ⟨missingSymbolFormat,
            [.str b.AMF_QUERY_VERSION_FUNCTION_NAME, .num e.initProcError]⟩))
        else
          let w := w.call (.AMFInit m_AMFVersion_Runtime)
          let m_AMFFactory := e.factory
          if e.initResult ≠ AMF_OK then
            (w, .error (.thrown ⟨"Initializing AMF Library failed, error code %ld.",
              [.num e.initResult]⟩))
          else
            let w := w.call (.AMF_LOG_DEBUG "<__FUNCTION_NAME__> AMF Library initialized." [])
            -- Retrieve Trace Object.
            if m_AMFFactory = 0 then (w, .error .fault)
            else
              let w := w.call .GetTrace
              let m_AMFTrace := e.trace
              if e.traceResult ≠ AMF_OK then
                (w, .error (.thrown ⟨"Retrieving AMF Trace class failed, error code %ld.",
                  [.num e.traceResult]⟩))
              else
                -- Retrieve Debug Object.
                let w := w.call .GetDebug
                let m_AMFDebug := e.debug
                if e.debugResult ≠ AMF_OK then
                  (w, .error (.thrown
                    ⟨"Retrieving AMF Debug class failed, error code %ld.",
                      [.num e.debugResult]⟩))
                else
                  -- Register Trace Writer and disable Debug Tracing.
                  let w := w.call .new_CustomWriter
                  let m_TraceWriter := e.traceWriter
                  if m_AMFTrace = 0 then (w, .error .fault)
                  else
                    let w := w.RegisterWriter true
                    let self : AMF :=
                      { this := e.address, m_TimerPeriod := 0,
                        m_AMFVersion_Plugin := b.AMF_FULL_VERSION,
                        m_AMFVersion_Runtime := m_AMFVersion_Runtime,
                        m_AMFModule := m_AMFModule, m_AMFFactory := m_AMFFactory,
                        m_AMFTrace := m_AMFTrace, m_AMFDebug := m_AMFDebug,
                        AMFQueryVersion := AMFQueryVersion, AMFInit := AMFInit,
                        m_TraceWriter := m_TraceWriter }
                    let r := self.EnableDebugTrace b false w
                    match r.2 with
                    | .error err => (r.1, .error err)
                    | .ok _ =>
                      -- Log success
                      let w := r.1.call (.AMF_LOG_INFO versionLogFormat
                        [.num (versionMajor self.m_AMFVersion_Plugin),
                         .num (versionMinor self.m_AMFVersion_Plugin),
                         .num (versionPatch self.m_AMFVersion_Plugin),
                         .num (versionBuild self.m_AMFVersion_Plugin),
                         .num (versionMajor self.m_AMFVersion_Runtime),
                         .num (versionMinor self.m_AMFVersion_Runtime),
                         .num (versionPatch self.m_AMFVersion_Runtime),
                         .num (versionBuild self.m_AMFVersion_Runtime),
                         .str e.productVersion])
                      let w := w.call (.AMF_LOG_DEBUG "<__FUNCTION_NAME__> Initialized." [])
                      (w, .ok self)

/-- The destructor `AMF::~AMF()`: the world after its calls and the object with its
members reset. -/
def AMF.destruct (self : AMF) (w : World) : World × AMF :=
  let w := w.call (.AMF_LOG_DEBUG "<__FUNCTION_NAME__> Finalizing." [])
  let (w, self) :=
    if self.m_TraceWriter ≠ 0 then
      (w.call .delete_CustomWriter, { self with m_TraceWriter := 0 })
    else (w, self)
  let w := if self.m_AMFModule ≠ 0 then w.call (.FreeLibrary self.m_AMFModule) else w
  let w := w.call (.AMF_LOG_DEBUG "<__FUNCTION_NAME__> Finalized." [])
  (w, { self with m_TimerPeriod := 0, m_AMFVersion_Plugin := 0, m_AMFVersion_Runtime := 0,
                  m_AMFModule := 0, m_AMFFactory := 0, m_AMFTrace := 0, m_AMFDebug := 0,
                  AMFQueryVersion := 0, AMFInit := 0 })

/-! ## The singleton -/

/-- State of the process as this file sees it: the static `__instance` (`none` for
`nullptr`) and the world outside. -/
structure Process where
  __instance : Option AMF
  world : World
deriving DecidableEq, Repr

/-- The static function `AMF::Initialize()`. If `new AMF()` throws, the assignment to
`__instance` does not happen. -/
def Initialize (b : Build) (e : Env) (p : Process) : Process × Except Error Unit :=
  match p.__instance with
  | some _ => (p, .ok ())
  | none =>
    match AMF.construct b e (p.world.call .new_AMF) with
    | (w, .ok self) => ({ __instance := some self, world := w }, .ok ())
    | (w, .error err) => ({ p with world := w }, .error err)

/-- The static function `AMF::Instance()`. -/
def Instance (p : Process) : Option AMF := p.__instance

/-- The static function `AMF::Finalize()`. -/
def Finalize (p : Process) : Process × Except Error Unit :=
  let w :=
    match p.__instance with
    | some self => (self.destruct (p.world.call .delete_AMF)).1
    | none => p.world
  ({ __instance := none, world := w }, .ok ())

/-- Number of `new AMF()` evaluations recorded so far. -/
def constructions (p : Process) : Nat := p.world.calls.count .new_AMF

/-- A caller's action on the singleton: the static functions, and `EnableDebugTrace`
invoked through `Instance()`. -/
inductive Op where
  | Initialize (e : Env)
  | Finalize
  | EnableDebugTrace (enable : Bool)
deriving DecidableEq, Repr

/-- One action of a caller; an error it raises is caught by the caller, the state the
action left behind stays. -/
def Op.run (b : Build) (p : Process) : Op → Process × Except Error Unit
  | .Initialize e => Plugin.AMD.Initialize b e p
  | .Finalize => Plugin.AMD.Finalize p
  | .EnableDebugTrace enable =>
    match Instance p with
    | none => (p, .error .fault)
    | some self =>
      let r := self.EnableDebugTrace b enable p.world
      ({ p with world := r.1 }, r.2)

/-- A sequence of actions, each one run to its end. -/
def runOps (b : Build) (p : Process) (ops : List Op) : Process :=
  ops.foldl (fun q op => (op.run b q).1) p

/-- The calls `Initialize()`, one per environment, errors caught by the caller. -/
def initializeAll (b : Build) (p : Process) (es : List Env) : Process :=
  runOps b p (es.map Op.Initialize)

/-- The world after `EnableDebugTrace(true)` followed by `EnableDebugTrace(false)` on the
same object. -/
def enabledThenDisabled (b : Build) (self : AMF) (w : World) : World :=
  (self.EnableDebugTrace b false (self.EnableDebugTrace b true w).1).1

/-! ## Concrete data used in the examples -/

/-- A release build with the names the vendor headers give the library and its two
entry points. -/
def sdkBuild : Build :=
  { AMF_DLL_NAME := "amfrt64.dll",
    AMF_QUERY_VERSION_FUNCTION_NAME := "AMFQueryVersion",
    AMF_INIT_FUNCTION_NAME := "AMFInit",
    AMF_FULL_VERSION := packVersion 1 3 0 5,
    _DEBUG := false }

/-- An initial trace and debug configuration with no call made yet. -/
def world0 : World :=
  { trace :=
      { console := ⟨true, .AMF_TRACE_TEST⟩, debugOutput := ⟨true, .AMF_TRACE_TEST⟩,
        file := ⟨true, .AMF_TRACE_TEST⟩, obsWriter := ⟨false, .AMF_TRACE_TEST⟩,
        globalLevel := .AMF_TRACE_TEST, asyncEnabled := false, path := none },
    debug := { asserts := true, performanceMonitor := true },
    calls := [] }

/-- The process before any call. -/
def process0 : Process := { __instance := none, world := world0 }

/-- An environment in which every step of the constructor succeeds. -/
def goodEnv : Env :=
  { address := 4096, module := 1, loadError := 0, productVersion := "16.40.2311",
    queryVersionProc := 2, queryVersionProcError := 0, queryVersionResult := AMF_OK,
    runtimeVersion := packVersion 1 4 0 0,
    initProc := 3, initProcError := 0, initResult := AMF_OK, factory := 4,
    traceResult := AMF_OK, trace := 5, debugResult := AMF_OK, debug := 6,
    traceWriter := 7 }

/-- The object the constructor builds in `goodEnv` for `sdkBuild`. -/
def amf0 : AMF :=
  { this := 4096, m_TimerPeriod := 0, m_AMFVersion_Plugin := packVersion 1 3 0 5,
    m_AMFVersion_Runtime := packVersion 1 4 0 0, m_AMFModule := 1, m_AMFFactory := 4,
    m_AMFTrace := 5, m_AMFDebug := 6, AMFQueryVersion := 2, AMFInit := 3,
    m_TraceWriter := 7 }

/-- The library cannot be loaded (error 126, module not found). -/
def noLibraryEnv : Env := { goodEnv with module := 0, loadError := 126 }

/-- The library loads and answers the version query but does not export the
initialisation entry point (error 127, procedure not found). -/
def noInitEnv : Env := { goodEnv with initProc := 0, initProcError := 127 }

/-- A raw header of 33 characters: date, time of day, thread id, opening bracket. -/
def header0 : List Char := "2016-10-11 12:34:56.789    1A2C [".toList

/-- A raw line with the scope `Core` and the body `hello` followed by a line end. -/
def line0 : List Char := rawLine header0 "Core".toList "] ".toList "hello\r\n".toList

/-! ## Lemmas on the version arithmetic -/

theorem shiftLeft_or_eq_add (a b i : Nat) (hb : b < 2 ^ i) :
    a <<< i ||| b = a * 2 ^ i + b := by
  rw [Nat.shiftLeft_eq, Nat.mul_comm a (2 ^ i), ← Nat.mul_add_lt_is_or hb a]

theorem packVersion_eq (major minor patch build : Nat)
    (h1 : major < 2 ^ 16) (h2 : minor < 2 ^ 16) (h3 : patch < 2 ^ 16)
    (h4 : build < 2 ^ 16) :
    packVersion major minor patch build
      = major * 2 ^ 48 + minor * 2 ^ 32 + patch * 2 ^ 16 + build := by
  have e1 : toUInt64 (major <<< 48) = major * 2 ^ 48 := by
    unfold toUInt64; rw [Nat.shiftLeft_eq]; omega
  have e2 : toUInt64 (minor <<< 32) = minor <<< 32 := by
    unfold toUInt64; rw [Nat.shiftLeft_eq]; omega
  have e3 : toUInt64 (patch <<< 16) = patch <<< 16 := by
    unfold toUInt64; rw [Nat.shiftLeft_eq]; omega
  unfold packVersion
  rw [e1, e2, e3]
  have s3 : patch <<< 16 ||| build = patch * 2 ^ 16 + build :=
    shiftLeft_or_eq_add patch build 16 h4
  have s2 : minor <<< 32 ||| (patch * 2 ^ 16 + build)
      = minor * 2 ^ 32 + (patch * 2 ^ 16 + build) :=
    shiftLeft_or_eq_add minor _ 32 (by omega)
  have s1 : major <<< 48 ||| (minor * 2 ^ 32 + (patch * 2 ^ 16 + build))
      = major * 2 ^ 48 + (minor * 2 ^ 32 + (patch * 2 ^ 16 + build)) :=
    shiftLeft_or_eq_add major _ 48 (by omega)
  rw [← Nat.shiftLeft_eq major 48, Nat.lor_assoc, Nat.lor_assoc, s3, s2, s1]
  unfold toUInt64
  omega

theorem and_ffff (x : Nat) : x &&& 0xFFFF = x % 2 ^ 16 :=
  Nat.and_pow_two_sub_one_eq_mod x 16

/-- C9: four 16-bit components packed as `(major << 48) | (minor << 32) | (patch << 16) | build`
come back unchanged through the shift-and-mask expressions of the version log line. -/
theorem version_roundtrip (major minor patch build : Nat)
    (h1 : major < 2 ^ 16) (h2 : minor < 2 ^ 16) (h3 : patch < 2 ^ 16)
    (h4 : build < 2 ^ 16) :
    versionMajor (packVersion major minor patch build) = major
      ∧ versionMinor (packVersion major minor patch build) = minor
      ∧ versionPatch (packVersion major minor patch build) = patch
      ∧ versionBuild (packVersion major minor patch build) = build := by
  rw [packVersion_eq major minor patch build h1 h2 h3 h4]
  unfold versionMajor versionMinor versionPatch versionBuild toUInt16
  simp only [and_ffff, Nat.shiftRight_eq_div_pow]
  refine ⟨?_, ?_, ?_, ?_⟩ <;> omega

/-- C9 at the boundary values `0xFFFF`, `0`, `1`, `0xFFFF`. -/
theorem version_roundtrip_boundary :
    versionMajor (packVersion 0xFFFF 0 1 0xFFFF) = 0xFFFF
      ∧ versionMinor (packVersion 0xFFFF 0 1 0xFFFF) = 0
      ∧ versionPatch (packVersion 0xFFFF 0 1 0xFFFF) = 1
      ∧ versionBuild (packVersion 0xFFFF 0 1 0xFFFF) = 0xFFFF :=
  version_roundtrip 0xFFFF 0 1 0xFFFF (by norm_num) (by norm_num) (by norm_num)
    (by norm_num)

/-! ## The trace sink -/

theorem applyPrecision_toInt32 (n : Nat) (h : n < 2 ^ 31) (s : List Char) :
    applyPrecision (toInt32 n) s = s.take n := by
  have e : n % 2 ^ 32 = n := by omega
  have hlt : n % 2 ^ 32 < 2 ^ 31 := by omega
  have hn : ¬ ((n : Int) < 0) := by omega
  unfold applyPrecision toInt32
  rw [if_pos hlt, e, if_neg hn]
  rw [Int.toNat_ofNat]

theorem start_eq (scope : List Char) (hs : wcslen scope < 2 ^ 31) :
    CustomWriter.start scope = 33 + wcslen scope + 2 := by
  unfold CustomWriter.start SIZE_RANGE wcslen at *
  omega

theorem msgLen_eq_of_le (scope message : List Char) (hs : wcslen scope < 2 ^ 31)
    (hm : wcslen message < 2 ^ 31)
    (h : 33 + wcslen scope + 2 + sizeof_wchar_t ≤ wcslen message) :
    CustomWriter.msgLen scope message
      = wcslen message - (33 + wcslen scope + 2) - sizeof_wchar_t := by
  unfold CustomWriter.msgLen
  rw [start_eq scope hs]
  unfold sizeof_wchar_t wcslen SIZE_RANGE at *
  rw [List.length_drop]
  omega

theorem Write_eq_of_le (scope message : List Char)
    (hs : wcslen scope < 2 ^ 31) (hm : wcslen message < 2 ^ 31)
    (h : 33 + wcslen scope + 2 + sizeof_wchar_t ≤ wcslen message) :
    CustomWriter.Write scope message
      = some (formatWrite ((message.drop 11).take 12) scope
          ((message.drop (33 + wcslen scope + 2)).take
            (wcslen message - (33 + wcslen scope + 2) - sizeof_wchar_t))) := by
  have hc : CustomWriter.start scope ≤ wcslen message ∧ 11 ≤ wcslen message := by
    rw [start_eq scope hs]; omega
  have h12 : applyPrecision 12 (message.drop 11) = (message.drop 11).take 12 :=
    applyPrecision_toInt32 12 (by norm_num) _
  have hlen : wcslen message - (33 + wcslen scope + 2) - sizeof_wchar_t < 2 ^ 31 := by
    omega
  unfold CustomWriter.Write
  simp only [hc, and_self, if_true]
  rw [msgLen_eq_of_le scope message hs hm h, applyPrecision_toInt32 _ hlen, h12,
    start_eq scope hs]

/-- C10: the offset and length computations of `CustomWriter::Write` stay inside the
line, without a wrap of the `size_t` subtraction, exactly when the line has at least
`33 + len(scope) + 2 + sizeof(wchar_t)` characters; the body emitted then is the line
from offset `33 + len(scope) + 2` without its last `sizeof(wchar_t)` characters. -/
theorem Write_in_bounds (scope message : List Char)
    (hs : wcslen scope < 2 ^ 31) (hm : wcslen message < 2 ^ 31) :
    ((CustomWriter.start scope ≤ wcslen message ∧ 11 + 12 ≤ wcslen message
          ∧ (CustomWriter.msgLen scope message : Int)
              = (wcslen message : Int) - (33 + wcslen scope + 2) - sizeof_wchar_t)
        ↔ 33 + wcslen scope + 2 + sizeof_wchar_t ≤ wcslen message)
      ∧ (33 + wcslen scope + 2 + sizeof_wchar_t ≤ wcslen message →
          ∃ body tail, tail.length = sizeof_wchar_t
            ∧ message.drop (33 + wcslen scope + 2) = body ++ tail
            ∧ CustomWriter.Write scope message
                = some (formatWrite ((message.drop 11).take 12) scope body)) := by
  refine ⟨?_, ?_⟩
  · unfold CustomWriter.msgLen
    rw [start_eq scope hs]
    unfold sizeof_wchar_t wcslen SIZE_RANGE at *
    rw [List.length_drop]
    omega
  · intro h
    refine ⟨(message.drop (33 + wcslen scope + 2)).take
        (wcslen message - (33 + wcslen scope + 2) - sizeof_wchar_t),
      (message.drop (33 + wcslen scope + 2)).drop
        (wcslen message - (33 + wcslen scope + 2) - sizeof_wchar_t), ?_, ?_, ?_⟩
    · unfold sizeof_wchar_t wcslen at *
      simp only [List.length_drop]
      omega
    · exact (List.take_append_drop _ _).symm
    · exact Write_eq_of_le scope message hs hm h

/-- C10 on a line with the scope `Core` and the body `hello` followed by a line end. -/
theorem Write_in_bounds_example :
    ((CustomWriter.start "Core".toList ≤ wcslen line0 ∧ 11 + 12 ≤ wcslen line0
          ∧ (CustomWriter.msgLen "Core".toList line0 : Int)
              = (wcslen line0 : Int) - (33 + wcslen "Core".toList + 2) - sizeof_wchar_t)
        ↔ 33 + wcslen "Core".toList + 2 + sizeof_wchar_t ≤ wcslen line0)
      ∧ (33 + wcslen "Core".toList + 2 + sizeof_wchar_t ≤ wcslen line0 →
          ∃ body tail, tail.length = sizeof_wchar_t
            ∧ line0.drop (33 + wcslen "Core".toList + 2) = body ++ tail
            ∧ CustomWriter.Write "Core".toList line0
                = some (formatWrite ((line0.drop 11).take 12) "Core".toList body)) :=
  Write_in_bounds "Core".toList line0 (by decide) (by decide)

/-- The text logged for `line0`. -/
theorem Write_line0 :
    CustomWriter.Write "Core".toList line0
      = some "[AMF Encoder] [12:34:56.789][Core] hello".toList := by
  decide

/-- With one character after the framing `msgLen` wraps to `2 ^ 64 - 1`, `printf` reads the
precision `-1` and the rest of the line is logged whole. -/
theorem Write_wrapped :
    CustomWriter.msgLen "Core".toList (rawLine header0 "Core".toList "] ".toList "x".toList)
        = 2 ^ 64 - 1
      ∧ CustomWriter.Write "Core".toList
          (rawLine header0 "Core".toList "] ".toList "x".toList)
          = some "[AMF Encoder] [12:34:56.789][Core] x".toList := by
  decide

/-- C6, as stated, fails: for the empty scope and the body `hello` the emitted text keeps
the time of day of the stamp and ends in `hel`; the body is not part of it. -/
theorem Write_loses_tail :
    CustomWriter.Write [] (rawLine header0 [] "] ".toList "hello".toList)
        = some "[AMF Encoder] [12:34:56.789][] hel".toList
      ∧ header0.length = 33
      ∧ ¬ ("hello".toList <:+: "[AMF Encoder] [12:34:56.789][] hel".toList)
      ∧ "12:34:56.789".toList <:+: "[AMF Encoder] [12:34:56.789][] hel".toList := by
  decide

/-- C6, amended: on a raw line made of a 33-character header, the scope, two framing
characters and a body followed by `sizeof(wchar_t)` further characters, `Write` emits
the prefix text, characters 11 to 22 of the header, the scope and exactly the body,
whatever the length of the scope. -/
theorem Write_rawLine (header scope framing body tail : List Char)
    (hh : header.length = 33) (hf : framing.length = 2)
    (ht : tail.length = sizeof_wchar_t)
    (hm : wcslen (rawLine header scope framing (body ++ tail)) < 2 ^ 31) :
    CustomWriter.Write scope (rawLine header scope framing (body ++ tail))
      = some (formatWrite ((header.drop 11).take 12) scope body) := by
  have hlen : wcslen (rawLine header scope framing (body ++ tail))
      = 33 + wcslen scope + 2 + (body.length + sizeof_wchar_t) := by
    simp [rawLine, wcslen, hh, hf, ht]
    omega
  have hs : wcslen scope < 2 ^ 31 := by omega
  rw [Write_eq_of_le scope _ hs hm (by omega)]
  have d1 : (rawLine header scope framing (body ++ tail)).drop (33 + wcslen scope + 2)
      = body ++ tail := by
    unfold rawLine
    exact List.drop_left' (by simp [wcslen, hh, hf]; omega)
  have d2 : ((rawLine header scope framing (body ++ tail)).drop 11).take 12
      = (header.drop 11).take 12 := by
    unfold rawLine
    rw [List.append_assoc, List.append_assoc,
      List.drop_append_of_le_length (by omega),
      List.take_append_of_le_length (by rw [List.length_drop]; omega)]
  rw [d1, d2, hlen]
  congr 2
  exact List.take_left' (by omega)

/-- C6 amended, on the empty scope with the body `hello` and a line end. -/
theorem Write_rawLine_example :
    CustomWriter.Write [] (rawLine header0 [] "] ".toList ("hello".toList ++ "\r\n".toList))
      = some (formatWrite ((header0.drop 11).take 12) [] "hello".toList) :=
  Write_rawLine header0 [] "] ".toList "hello".toList "\r\n".toList (by decide)
    (by decide) (by decide) (by decide)

/-! ## `EnableDebugTrace` -/

theorem EnableDebugTrace_ok (b : Build) (self : AMF) (enable : Bool) (w : World)
    (ht : self.m_AMFTrace ≠ 0) (hd : self.m_AMFDebug ≠ 0) :
    (self.EnableDebugTrace b enable w).2 = .ok () := by
  unfold AMF.EnableDebugTrace
  simp only [ht, hd, if_false]
  cases enable <;> rfl

theorem EnableDebugTrace_calls (b : Build) (self : AMF) (enable : Bool) (w : World) :
    (self.EnableDebugTrace b enable w).1.calls.count .new_AMF = w.calls.count .new_AMF := by
  by_cases ht : self.m_AMFTrace = 0
  · simp [AMF.EnableDebugTrace, ht]
  by_cases hd : self.m_AMFDebug = 0
  · simp [AMF.EnableDebugTrace, ht, hd]
  cases enable <;> cases hb : b._DEBUG <;>
    simp [AMF.EnableDebugTrace, builtinWriters, ht, hd, hb, World.call, World.EnableWriter,
      World.SetWriterLevel, World.SetPath, World.SetGlobalLevel, World.TraceEnableAsync,
      World.AssertsEnable, World.EnablePerformanceMonitor]

/-! ## The constructor -/

theorem construct_ok (b : Build) (e : Env) (w w1 : World) (a : AMF)
    (h : AMF.construct b e w = (w1, .ok a)) :
    a.m_AMFFactory ≠ 0 ∧ a.m_AMFTrace ≠ 0 ∧ a.m_AMFDebug ≠ 0 ∧ a.this = e.address := by
  by_cases h1 : e.module = 0
  · simp [AMF.construct, h1] at h
  by_cases h2 : e.queryVersionProc = 0
  · simp [AMF.construct, h1, h2] at h
  by_cases h3 : e.queryVersionResult = AMF_OK
  swap
  · simp [AMF.construct, h1, h2, h3] at h
  by_cases h4 : e.initProc = 0
  · simp [AMF.construct, h1, h2, h3, h4] at h
  by_cases h5 : e.initResult = AMF_OK
  swap
  · simp [AMF.construct, h1, h2, h3, h4, h5] at h
  by_cases h6 : e.factory = 0
  · simp [AMF.construct, h1, h2, h3, h4, h5, h6] at h
  by_cases h7 : e.traceResult = AMF_OK
  swap
  · simp [AMF.construct, h1, h2, h3, h4, h5, h6, h7] at h
  by_cases h8 : e.debugResult = AMF_OK
  swap
  · simp [AMF.construct, h1, h2, h3, h4, h5, h6, h7, h8] at h
  by_cases h9 : e.trace = 0
  · simp [AMF.construct, h1, h2, h3, h4, h5, h6, h7, h8, h9] at h
  by_cases h10 : e.debug = 0
  · simp [AMF.construct, AMF.EnableDebugTrace, h1, h2, h3, h4, h5, h6, h7, h8, h9, h10] at h
  simp [AMF.construct, AMF.EnableDebugTrace, h1, h2, h3, h4, h5, h6, h7, h8, h9, h10] at h
  obtain ⟨-, rfl⟩ := h
  exact ⟨h6, h9, h10, rfl⟩

theorem construct_calls (b : Build) (e : Env) (w : World) :
    (AMF.construct b e w).1.calls.count .new_AMF = w.calls.count .new_AMF := by
  by_cases h1 : e.module = 0
  · simp [AMF.construct, World.call, h1]
  by_cases h2 : e.queryVersionProc = 0
  · simp [AMF.construct, World.call, h1, h2]
  by_cases h3 : e.queryVersionResult = AMF_OK
  swap
  · simp [AMF.construct, World.call, h1, h2, h3]
  by_cases h4 : e.initProc = 0
  · simp [AMF.construct, World.call, h1, h2, h3, h4]
  by_cases h5 : e.initResult = AMF_OK
  swap
  · simp [AMF.construct, World.call, h1, h2, h3, h4, h5]
  by_cases h6 : e.factory = 0
  · simp [AMF.construct, World.call, h1, h2, h3, h4, h5, h6]
  by_cases h7 : e.traceResult = AMF_OK
  swap
  · simp [AMF.construct, World.call, h1, h2, h3, h4, h5, h6, h7]
  by_cases h8 : e.debugResult = AMF_OK
  swap
  · simp [AMF.construct, World.call, h1, h2, h3, h4, h5, h6, h7, h8]
  by_cases h9 : e.trace = 0
  · simp [AMF.construct, World.call, h1, h2, h3, h4, h5, h6, h7, h8, h9]
  simp only [AMF.construct, h1, h2, h3, h4, h5, h6, h7, h8, h9, if_false, ne_eq,
    not_true_eq_false, not_false_eq_true, if_true]
  split <;> simp [World.call, World.RegisterWriter, EnableDebugTrace_calls]

/-! ## The singleton -/

theorem construct_error_of_failing_step (b : Build) (e : Env) (w : World)
    (hstep : e.module = 0 ∨ e.queryVersionProc = 0 ∨ e.queryVersionResult ≠ AMF_OK
      ∨ e.initProc = 0 ∨ e.initResult ≠ AMF_OK ∨ e.traceResult ≠ AMF_OK
      ∨ e.debugResult ≠ AMF_OK) :
    ∃ err, (AMF.construct b e w).2 = .error err := by
  by_cases h1 : e.module = 0
  · simp [AMF.construct, h1]
  by_cases h2 : e.queryVersionProc = 0
  · simp [AMF.construct, h1, h2]
  by_cases h3 : e.queryVersionResult = AMF_OK
  swap
  · simp [AMF.construct, h1, h2, h3]
  by_cases h4 : e.initProc = 0
  · simp [AMF.construct, h1, h2, h3, h4]
  by_cases h5 : e.initResult = AMF_OK
  swap
  · simp [AMF.construct, h1, h2, h3, h4, h5]
  by_cases h6 : e.factory = 0
  · simp [AMF.construct, h1, h2, h3, h4, h5, h6]
  by_cases h7 : e.traceResult = AMF_OK
  swap
  · simp [AMF.construct, h1, h2, h3, h4, h5, h6, h7]
  by_cases h8 : e.debugResult = AMF_OK
  swap
  · simp [AMF.construct, h1, h2, h3, h4, h5, h6, h7, h8]
  simp [h1, h2, h3, h4, h5, h7, h8] at hstep

theorem Initialize_of_construct_error (b : Build) (e : Env) (p : Process) (err : Error)
    (hnone : Instance p = none)
    (hfail : (AMF.construct b e (p.world.call .new_AMF)).2 = .error err) :
    (Initialize b e p).2 = .error err
      ∧ (Initialize b e p).1.__instance = none
      ∧ Instance (Initialize b e p).1 = none := by
  unfold Instance at hnone ⊢
  unfold Initialize
  simp only [hnone]
  rcases hc : AMF.construct b e (p.world.call .new_AMF) with ⟨w, r⟩
  rw [hc] at hfail
  simp only at hfail
  subst hfail
  exact ⟨rfl, rfl, rfl⟩

theorem Initialize_of_some (b : Build) (e : Env) (p : Process) (a : AMF)
    (h : Instance p = some a) : Initialize b e p = (p, .ok ()) := by
  unfold Instance at h
  simp [Initialize, h]

theorem Initialize_ok (b : Build) (e : Env) (p : Process)
    (hnone : Instance p = none) (hok : (Initialize b e p).2 = .ok ()) :
    ∃ w a, AMF.construct b e (p.world.call .new_AMF) = (w, .ok a)
      ∧ (Initialize b e p).1 = { __instance := some a, world := w } := by
  unfold Instance at hnone
  unfold Initialize at hok ⊢
  simp only [hnone] at hok ⊢
  rcases hc : AMF.construct b e (p.world.call .new_AMF) with ⟨w, r⟩
  cases r with
  | error err => simp [hc] at hok
  | ok a => exact ⟨w, a, rfl, rfl⟩

theorem run_keeps_instance (b : Build) (p : Process) (a : AMF) (op : Op)
    (h : Instance p = some a) (hop : op ≠ .Finalize) :
    Instance (op.run b p).1 = some a := by
  cases op with
  | Initialize e => rw [Op.run, Initialize_of_some b e p a h]; exact h
  | Finalize => exact absurd rfl hop
  | EnableDebugTrace enable =>
    unfold Instance at h
    simp [Op.run, Instance, h]

theorem runOps_keeps_instance (b : Build) (ops : List Op) :
    ∀ (p : Process) (a : AMF), Instance p = some a → Op.Finalize ∉ ops →
      Instance (runOps b p ops) = some a := by
  induction ops with
  | nil => intro p a h _; exact h
  | cons op rest ih =>
    intro p a h hops
    have h1 : op ≠ .Finalize := fun hc => hops (by simp [hc])
    have h2 : Op.Finalize ∉ rest := fun hc => hops (by simp [hc])
    exact ih (op.run b p).1 a (run_keeps_instance b p a op h h1) h2

theorem initializeAll_of_some (b : Build) (es : List Env) :
    ∀ (p : Process) (a : AMF), Instance p = some a → initializeAll b p es = p := by
  induction es with
  | nil => intro p a _; rfl
  | cons e rest ih =>
    intro p a h
    have hstep : initializeAll b p (e :: rest) = initializeAll b (Initialize b e p).1 rest := rfl
    rw [hstep, Initialize_of_some b e p a h]
    exact ih p a h

theorem Initialize_goodEnv :
    Instance (Initialize sdkBuild goodEnv process0).1 = some amf0 := by
  decide

/-- C1, as stated, fails: two calls of `Initialize()` that cannot load the library run
`new AMF()` twice and leave no instance. -/
theorem Initialize_twice_without_library :
    constructions process0 = 0
      ∧ constructions (initializeAll sdkBuild process0 [noLibraryEnv, noLibraryEnv]) = 2
      ∧ Instance (initializeAll sdkBuild process0 [noLibraryEnv, noLibraryEnv]) = none := by
  decide

/-- C1, amended: starting without an instance, when the constructor run by the first
`Initialize()` completes, any number of further `Initialize()` calls add no construction
(one `new AMF()` in all) and `Instance()` after each of the calls returns the one object
built by the first, located at the address `new` returned. -/
theorem Initialize_idempotent (b : Build) (p : Process) (e : Env) (es : List Env)
    (hnone : Instance p = none) (hok : (Initialize b e p).2 = .ok ()) :
    ∃ a, a.this = e.address ∧ ∀ k, k ≤ es.length →
      Instance (initializeAll b p (e :: es.take k)) = some a
        ∧ constructions (initializeAll b p (e :: es.take k)) = constructions p + 1 := by
  obtain ⟨w, a, hc, hp⟩ := Initialize_ok b e p hnone hok
  refine ⟨a, (construct_ok b e _ w a hc).2.2.2, ?_⟩
  intro k _
  have hstep : initializeAll b p (e :: es.take k)
      = initializeAll b (Initialize b e p).1 (es.take k) := rfl
  have hi : Instance (Initialize b e p).1 = some a := by rw [hp]; rfl
  rw [hstep, initializeAll_of_some b (es.take k) _ a hi]
  refine ⟨hi, ?_⟩
  have hcount := construct_calls b e (p.world.call .new_AMF)
  rw [hc] at hcount
  rw [hp]
  simp only [constructions] at hcount ⊢
  rw [hcount]
  simp [World.call]

/-- C1 amended, on three calls of `Initialize()` in an environment where every step
succeeds. -/
theorem Initialize_idempotent_example :
    ∃ a, a.this = goodEnv.address ∧ ∀ k, k ≤ [goodEnv, goodEnv].length →
      Instance (initializeAll sdkBuild process0 (goodEnv :: [goodEnv, goodEnv].take k)) = some a
        ∧ constructions (initializeAll sdkBuild process0 (goodEnv :: [goodEnv, goodEnv].take k))
            = constructions process0 + 1 :=
  Initialize_idempotent sdkBuild process0 goodEnv [goodEnv, goodEnv] (by decide) (by rfl)

/-- C2: when a fatal step of the construction fails during `Initialize()` (the library
does not load, an entry point is not found, or the version query, the initialisation, the
trace retrieval or the debug retrieval returns a code other than `AMF_OK`), the constructor
ends in an error, `Initialize()` ends with that same error, `__instance` stays null and the
following `Instance()` returns null. -/
theorem Initialize_failure (b : Build) (e : Env) (p : Process)
    (hnone : Instance p = none)
    (hstep : e.module = 0 ∨ e.queryVersionProc = 0 ∨ e.queryVersionResult ≠ AMF_OK
      ∨ e.initProc = 0 ∨ e.initResult ≠ AMF_OK ∨ e.traceResult ≠ AMF_OK
      ∨ e.debugResult ≠ AMF_OK) :
    ∃ err, (AMF.construct b e (p.world.call .new_AMF)).2 = .error err
      ∧ (Initialize b e p).2 = .error err
      ∧ (Initialize b e p).1.__instance = none
      ∧ Instance (Initialize b e p).1 = none := by
  obtain ⟨err, herr⟩ := construct_error_of_failing_step b e (p.world.call .new_AMF) hstep
  exact ⟨err, herr, Initialize_of_construct_error b e p err hnone herr⟩

/-- C2 when the library cannot be loaded. -/
theorem Initialize_failure_example :
    ∃ err, (AMF.construct sdkBuild noLibraryEnv (process0.world.call .new_AMF)).2 = .error err
      ∧ (Initialize sdkBuild noLibraryEnv process0).2 = .error err
      ∧ (Initialize sdkBuild noLibraryEnv process0).1.__instance = none
      ∧ Instance (Initialize sdkBuild noLibraryEnv process0).1 = none :=
  Initialize_failure sdkBuild noLibraryEnv process0 (by decide) (by decide)

/-- The exception `Initialize()` ends with when the library cannot be loaded. -/
theorem Initialize_without_library :
    (Initialize sdkBuild noLibraryEnv process0).2
      = .error (.thrown ⟨"Unable to load '%ls', error code %ld.",
          [.str "amfrt64.dll", .num 126]⟩) := by
  rfl

/-- C3: after an `Initialize()` that built the instance without an error, `GetFactory()`,
`GetTrace()` and `GetDebug()` on it are non-null, and after any further calls other than
`Finalize()` the instance, and with it each of the three references, is the same. -/
theorem accessors_stable (b : Build) (e : Env) (p : Process) (ops : List Op)
    (hnone : Instance p = none) (hok : (Initialize b e p).2 = .ok ())
    (hops : Op.Finalize ∉ ops) :
    ∃ a, Instance (Initialize b e p).1 = some a
      ∧ a.GetFactory ≠ 0 ∧ a.GetTrace ≠ 0 ∧ a.GetDebug ≠ 0
      ∧ Instance (runOps b (Initialize b e p).1 ops) = some a := by
  obtain ⟨w, a, hc, hp⟩ := Initialize_ok b e p hnone hok
  have hi : Instance (Initialize b e p).1 = some a := by rw [hp]; rfl
  obtain ⟨hf, ht, hd, -⟩ := construct_ok b e _ w a hc
  exact ⟨a, hi, hf, ht, hd, runOps_keeps_instance b ops _ a hi hops⟩

/-- C3 on a successful initialisation followed by two switches of the debug trace and
a repeated `Initialize()`. -/
theorem accessors_stable_example :
    ∃ a, Instance (Initialize sdkBuild goodEnv process0).1 = some a
      ∧ a.GetFactory ≠ 0 ∧ a.GetTrace ≠ 0 ∧ a.GetDebug ≠ 0
      ∧ Instance (runOps sdkBuild (Initialize sdkBuild goodEnv process0).1
          [.EnableDebugTrace true, .Initialize noLibraryEnv, .EnableDebugTrace false])
          = some a :=
  accessors_stable sdkBuild goodEnv process0
    [.EnableDebugTrace true, .Initialize noLibraryEnv, .EnableDebugTrace false]
    (by decide) (by rfl) (by decide)

/-- C4: `Finalize()` never raises, leaves `Instance()` null, changes nothing when there
is no instance, and a second `Finalize()` adds nothing to the first. -/
theorem Finalize_spec (p : Process) :
    (Finalize p).2 = .ok ()
      ∧ Instance (Finalize p).1 = none
      ∧ (Instance p = none → (Finalize p).1 = p)
      ∧ Finalize (Finalize p).1 = Finalize p := by
  refine ⟨rfl, rfl, ?_, rfl⟩
  intro h
  unfold Instance at h
  cases p with
  | mk inst world =>
    simp only at h
    subst h
    rfl

/-- C4 on a process that holds an instance and on one that does not. -/
theorem Finalize_spec_example :
    Instance (Finalize (Initialize sdkBuild goodEnv process0).1).1 = none
      ∧ (Finalize process0).1 = process0 :=
  ⟨(Finalize_spec (Initialize sdkBuild goodEnv process0).1).2.1,
    (Finalize_spec process0).2.2.1 (by decide)⟩

/-! ## Failure messages of the constructor -/

/-- C5 at the failing input: the library loads and answers the version query, the lookup
of `AMF_INIT_FUNCTION_NAME` (`AMFInit`) is the first step to fail, and the exception
names `AMF_QUERY_VERSION_FUNCTION_NAME` (`AMFQueryVersion`) as the symbol not found: it is
the exception of a failed lookup of the version query with the same error code. -/
theorem construct_missing_init_symbol :
    (AMF.construct sdkBuild noInitEnv world0).2
        = .error (.thrown ⟨"Incompatible AMF Runtime (could not find '%s'), error code %ld.",
            [.str "AMFQueryVersion", .num 127]⟩)
      ∧ (AMF.construct sdkBuild noInitEnv world0).1.calls.getLast?
          = some (.GetProcAddress "AMFInit")
      ∧ (AMF.construct sdkBuild noInitEnv world0).2
          = (AMF.construct sdkBuild
              { goodEnv with queryVersionProc := 0, queryVersionProcError := 127 } world0).2 := by
  refine ⟨rfl, rfl, rfl⟩

/-! ## Switching the debug trace -/

/-- C7: with the trace and debug objects present, `EnableDebugTrace(true)` followed by
`EnableDebugTrace(false)` succeeds and leaves assertions and the performance monitor off,
the global level and the level of `OBSWriter` at warning: the trace and debug
configuration of a single `EnableDebugTrace(false)`. -/
theorem EnableDebugTrace_true_then_false (b : Build) (self : AMF) (w : World)
    (ht : self.m_AMFTrace ≠ 0) (hd : self.m_AMFDebug ≠ 0) :
    (self.EnableDebugTrace b true w).2 = .ok ()
      ∧ (self.EnableDebugTrace b false (self.EnableDebugTrace b true w).1).2 = .ok ()
      ∧ (enabledThenDisabled b self w).debug.asserts = false
      ∧ (enabledThenDisabled b self w).debug.performanceMonitor = false
      ∧ (enabledThenDisabled b self w).trace.globalLevel = .AMF_TRACE_WARNING
      ∧ (enabledThenDisabled b self w).trace.obsWriter.level = .AMF_TRACE_WARNING
      ∧ (enabledThenDisabled b self w).trace = (self.EnableDebugTrace b false w).1.trace
      ∧ (enabledThenDisabled b self w).debug = (self.EnableDebugTrace b false w).1.debug := by
  refine ⟨EnableDebugTrace_ok b self true w ht hd,
    EnableDebugTrace_ok b self false _ ht hd, ?_⟩
  cases hb : b._DEBUG <;>
    simp [enabledThenDisabled, AMF.EnableDebugTrace, builtinWriters, ht, hd, hb, World.call,
      World.EnableWriter, World.SetWriterLevel, World.SetPath, World.SetGlobalLevel,
      World.TraceEnableAsync, World.AssertsEnable, World.EnablePerformanceMonitor,
      TraceState.modifyWriter]

/-- C7 on the object built in an environment where every step succeeds. -/
theorem EnableDebugTrace_true_then_false_example :
    (enabledThenDisabled sdkBuild amf0 world0).debug.asserts = false
      ∧ (enabledThenDisabled sdkBuild amf0 world0).debug.performanceMonitor = false
      ∧ (enabledThenDisabled sdkBuild amf0 world0).trace.globalLevel = .AMF_TRACE_WARNING
      ∧ (enabledThenDisabled sdkBuild amf0 world0).trace.obsWriter.level = .AMF_TRACE_WARNING
      ∧ (enabledThenDisabled sdkBuild amf0 world0).trace
          = (amf0.EnableDebugTrace sdkBuild false world0).1.trace
      ∧ (enabledThenDisabled sdkBuild amf0 world0).debug
          = (amf0.EnableDebugTrace sdkBuild false world0).1.debug :=
  (EnableDebugTrace_true_then_false sdkBuild amf0 world0 (by decide) (by decide)).2.2

/-- C8: `EnableDebugTrace` raises exactly when the trace object or the debug object is
null; what it raises is one of its two precondition exceptions, and it has then made no
call and changed nothing. -/
theorem EnableDebugTrace_precondition (b : Build) (self : AMF) (enable : Bool) (w : World) :
    ((∃ err, (self.EnableDebugTrace b enable w).2 = .error err)
        ↔ (self.m_AMFTrace = 0 ∨ self.m_AMFDebug = 0))
      ∧ (∀ err, (self.EnableDebugTrace b enable w).2 = .error err →
          (self.EnableDebugTrace b enable w).1 = w
            ∧ (err = .thrown noTraceObject ∨ err = .thrown noDebugObject)) := by
  by_cases ht : self.m_AMFTrace = 0
  · simp [AMF.EnableDebugTrace, ht]
  by_cases hd : self.m_AMFDebug = 0
  · simp [AMF.EnableDebugTrace, ht, hd]
  have hok := EnableDebugTrace_ok b self enable w ht hd
  simp [hok, ht, hd]

/-- C8 on an object whose debug pointer is null. -/
theorem EnableDebugTrace_precondition_example :
    (AMF.EnableDebugTrace sdkBuild { amf0 with m_AMFDebug := 0 } true world0).1 = world0 :=
  ((EnableDebugTrace_precondition sdkBuild { amf0 with m_AMFDebug := 0 } true world0).2
      (.thrown noDebugObject) rfl).1

end Plugin.AMD
